import Mathlib

/-!
Shallow embedding of the go-on/wrap middleware library (package `wrap`).

The embedding translates the relevant source files:
  * `wrap.go`        — `Wrapper`, `New`, `NoOp`, `ValidateContextInjecter`
  * `adapter.go`     — the `Handler` adapter (plain-handler adapter)
  * `buffer.go`      — `Buffer` response-writer wrapper
  * `peek.go`        — `Peek` response-writer wrapper (src/unnamed/part_012)
  * `escapehtml.go`  — `EscapeHTML` response-writer wrapper
  * `contexter.go`   — `Contexter`, `ReclaimResponseWriter`
  * `error.go`       — the four structured error values
  * the example `context` Contexter implementation (src/unnamed/part_009)

The underlying `http.ResponseWriter` handed to a middleware stack is modelled
as a trace of the operations a wrapper performs on it, so that statements about
*which* operations reach the real sink and *in which order* are direct
equalities on traces.  Body bytes are modelled at the rune granularity used by
the source (`utf8.DecodeRune` over the write's byte slice); all bytes relevant
to the claims are ASCII, where runes and bytes coincide.
-/

namespace Wrap

/-- An operation observed by the underlying (real) response writer:
`Header().Del`, `Header().Add`, `WriteHeader`, or a body `Write`. -/
inductive Ev where
  | hdel (k : String)
  | hadd (k v : String)
  | writeHeader (code : Nat)
  | write (b : String)
  deriving DecidableEq, Repr

/-- The underlying response writer, as the trace of operations it received,
oldest first. -/
abbrev RW := List Ev

/-- Source `rw.WriteHeader(code)` on the underlying response writer. -/
def RW.writeHeader (rw : RW) (code : Nat) : RW := rw ++ [Ev.writeHeader code]

/-- Source `rw.Write(b)` on the underlying response writer. -/
def RW.write (rw : RW) (b : String) : RW := rw ++ [Ev.write b]

/-- The body the underlying response writer received: the concatenation of all
of its `Write` calls' payloads, in order. -/
def RW.body (rw : RW) : String :=
  rw.foldl (fun acc e => match e with | Ev.write b => acc ++ b | _ => acc) ""

/-! ## wrap.go: Wrapper, New, NoOp (request-independent form)

A `Handler`'s `ServeHTTP(rw, req)` is modelled as a function from the response
writer state to the response writer state (the request is opaque to every
handler the claims mention, so it is dropped). A `Wrapper` is exactly its
`Wrap` method. -/

/-- Source `http.Handler`: `ServeHTTP` as a state transformer on the response writer. -/
abbrev Handler := RW → RW

/-- Source `Wrapper`: the single method `Wrap(next http.Handler) http.Handler`. -/
abbrev Wrapper := Handler → Handler

/-- Source `NoOp` from wrap.go: a handler doing nothing. -/
def NoOp : Handler := fun rw => rw

/-- Source `New` from wrap.go (DEBUG = false path):
`h = NoOp; for i := len(wrapper) - 1; i >= 0; i-- { h = wrapper[i].Wrap(h) }`.
The loop visits the wrappers in reverse order, folding from the last one. -/
def New (wrapper : List Wrapper) : Handler :=
  wrapper.reverse.foldl (fun h w => w h) NoOp

/-- The reverse loop of `New` is the right fold of `Wrap` over the list. -/
theorem New_eq_foldr (wrapper : List Wrapper) :
    New wrapper = wrapper.foldr (fun w h => w h) NoOp := by
  unfold New
  induction wrapper with
  | nil => rfl
  | cons w ws ih => simp [List.foldl_append, ih]

/-- Source `Handler` adapter from adapter.go (DEBUG = false path): wraps an
`http.Handler` into a `Wrapper` that runs the handler and ignores `next`. -/
def HandlerAdapter (h : Handler) : Wrapper := fun _next => h

/-! ### Side-effect wrappers for the ordering claim

C1 quantifies over wrappers that run a side effect and then either call `next`
or stop.  Such a wrapper is described by its effect on the response writer and
whether it invokes `next`. -/

/-- A middleware unit that performs effect `eff` on the response writer and
then calls `next` iff `callsNext` (the shape C1 quantifies over). -/
structure EffWrapper where
  eff : RW → RW
  callsNext : Bool

/-- The `Wrapper` a middleware of shape `EffWrapper` amounts to. -/
def EffWrapper.toWrapper (w : EffWrapper) : Wrapper :=
  fun next rw => if w.callsNext then next (w.eff rw) else w.eff rw

/-- Reference semantics: run the effects in list order, stopping right after
the first wrapper that does not call `next`; ending in the terminal no-op. -/
def runPrefix : List EffWrapper → RW → RW
  | [], rw => NoOp rw
  | w :: ws, rw => if w.callsNext then runPrefix ws (w.eff rw) else w.eff rw

/-- A wrapper that appends the token `tok` to the body and calls next
(the "append then next" wrapper of C1's scenario). -/
def appendWrapper (tok : String) : EffWrapper :=
  { eff := fun rw => rw.write tok, callsNext := true }

theorem New_effWrappers (ws : List EffWrapper) (rw : RW) :
    New (ws.map EffWrapper.toWrapper) rw = runPrefix ws rw := by
  rw [New_eq_foldr]
  induction ws generalizing rw with
  | nil => rfl
  | cons w ws ih =>
    simp only [List.map_cons, List.foldr_cons, runPrefix]
    by_cases h : w.callsNext
    · simp only [EffWrapper.toWrapper, h, if_true]
      exact ih (w.eff rw)
    · simp only [EffWrapper.toWrapper, h]
      simp [h]

/-- Once a wrapper that does not call `next` is reached, the wrappers after it
never execute: the tail past the stopper is irrelevant. -/
theorem runPrefix_stop (e : RW → RW) (l1 l2 : List EffWrapper) (rw : RW) :
    runPrefix (l1 ++ ⟨e, false⟩ :: l2) rw = runPrefix (l1 ++ [⟨e, false⟩]) rw := by
  induction l1 generalizing rw with
  | nil => rfl
  | cons w ws ih =>
    simp only [List.cons_append, runPrefix]
    by_cases h : w.callsNext
    · simp [h, ih]
    · simp [h]

/-! ## error.go: the structured error values -/

/-- The structured panic values of error.go raised by the response-writer
wrappers (`ErrBodyFlushedBeforeCode`, `ErrCodeFlushedBeforeHeaders`). -/
inductive WrapErr where
  | bodyFlushedBeforeCode
  | codeFlushedBeforeHeaders
  deriving DecidableEq, Repr

/-! ## http.Header model

`http.Header` is a `map[string][]string`; the wrappers only use `Set`, `Add`
and `Del` on it.  It is modelled as an association list in insertion order
(one determinization of Go's unspecified map iteration order; every claim uses
at most one key, where the orders coincide). -/

/-- Cached `http.Header`: keys with their value lists, in insertion order. -/
abbrev Header := List (String × List String)

/-- Source `h.Del(k)`: delete the values associated with key `k`. -/
def Header.del (h : Header) (k : String) : Header :=
  h.filter (fun p => p.1 ≠ k)

/-- Source `h.Set(k, v)`: set the header entry for `k` to the single value `v`. -/
def Header.set (h : Header) (k v : String) : Header :=
  h.del k ++ [(k, [v])]

/-- The trace of operations `Buffer.FlushHeaders`/`Peek.FlushHeaders` perform
on the underlying writer's header:
`for k, v := range cached { header.Del(k); for _, val := range v { header.Add(k, val) } }`. -/
def flushHeaderEvents (h : Header) : List Ev :=
  h.flatMap (fun p => Ev.hdel p.1 :: p.2.map (Ev.hadd p.1))

/-! ## peek.go (src/unnamed/part_012): the Peek response-writer wrapper

`proceed func(*Peek) bool` is modelled as an optional pure predicate on the
cached `Peek` state.  The number of times `proceed` has been invoked is
tracked alongside the state as ghost instrumentation (`proceedCalls`), so that
"invoked exactly once" is a statement about the model. -/

/-- The mutable fields of `Peek` (peek.go). `Code = 0` is Go's unset zero
value. -/
structure Peek where
  Code : Nat
  changed : Bool
  header : Header
  writeForbidden : Bool
  isChecked : Bool
  codeWritten : Bool
  headersWritten : Bool
  bodyWritten : Bool
  deriving DecidableEq, Repr

/-- A `Peek` together with its underlying response writer and the ghost count
of `proceed` invocations. -/
structure PeekM where
  peek : Peek
  rw : RW
  proceedCalls : Nat
  deriving DecidableEq, Repr

/-- Source `NewPeek(rw, proceed)`: fresh cached state over the given underlying
writer (the `proceed` function is passed to `Peek.Write` separately). -/
def NewPeek (rw : RW) : PeekM :=
  { peek := { Code := 0, changed := false, header := [], writeForbidden := false,
              isChecked := false, codeWritten := false, headersWritten := false,
              bodyWritten := false }
    rw := rw
    proceedCalls := 0 }

/-- Source `Peek.Header().Set(k, v)`: obtaining the cached header marks the state
changed; the caller then sets `k` to `v` on it. -/
def Peek.headerSet (st : PeekM) (k v : String) : PeekM :=
  { st with peek := { st.peek with changed := true, header := st.peek.header.set k v } }

/-- Source `Peek.WriteHeader(i)`: cache the status code, tracking the change. -/
def Peek.WriteHeader (st : PeekM) (i : Nat) : PeekM :=
  { st with peek := { st.peek with changed := true, Code := i } }

/-- Source `Peek.IsOk()`: the cached status code is unset or in the 2xx range. -/
def Peek.IsOk (p : Peek) : Bool :=
  if p.Code = 0 then true
  else if 200 ≤ p.Code ∧ p.Code < 300 then true
  else false

/-- The result of a Go `Write` call: bytes written and an optional error
(`io.EOF` is the only error the wrappers produce themselves). -/
inductive WriteErr where
  | eof
  deriving DecidableEq, Repr

/-- Source `Peek.Write(b)` (peek.go): consult `proceed` on the first call only; if
the write is forbidden return `(0, io.EOF)` without touching the underlying
writer; otherwise mark body-written/changed and write through. -/
def Peek.Write (proceed : Option (Peek → Bool)) (st : PeekM) (b : String) :
    PeekM × (Nat × Option WriteErr) :=
  let st1 : PeekM :=
    match proceed with
    | some f =>
        if !st.peek.isChecked then
          { st with peek := { st.peek with writeForbidden := !(f st.peek), isChecked := true }
                    proceedCalls := st.proceedCalls + 1 }
        else st
    | none => st
  if st1.peek.writeForbidden then (st1, (0, some WriteErr.eof))
  else
    ({ st1 with peek := { st1.peek with bodyWritten := true, changed := true }
                rw := st1.rw.write b },
     (b.length, none))

/-- Source `Peek.FlushCode()` (peek.go): no-op if already flushed; panics with
`ErrBodyFlushedBeforeCode` if the body reached the sink first; otherwise
writes the cached code (if set) through. -/
def Peek.FlushCode (st : PeekM) : Except WrapErr PeekM :=
  if st.peek.codeWritten then .ok st
  else if st.peek.bodyWritten then .error WrapErr.bodyFlushedBeforeCode
  else if st.peek.Code ≠ 0 then
    .ok { st with peek := { st.peek with codeWritten := true }
                  rw := st.rw.writeHeader st.peek.Code }
  else .ok st

/-- Source `Peek.FlushHeaders()` (peek.go): no-op if already flushed; panics with
`ErrCodeFlushedBeforeHeaders` if the code was flushed first, and with
`ErrBodyFlushedBeforeCode` if the body was; otherwise pushes the cached
headers to the underlying writer. -/
def Peek.FlushHeaders (st : PeekM) : Except WrapErr PeekM :=
  if st.peek.headersWritten then .ok st
  else if st.peek.codeWritten then .error WrapErr.codeFlushedBeforeHeaders
  else if st.peek.bodyWritten then .error WrapErr.bodyFlushedBeforeCode
  else
    .ok { st with peek := { st.peek with headersWritten := true }
                  rw := st.rw ++ flushHeaderEvents st.peek.header }

/-- Source `Peek.FlushMissing()` (peek.go): flush headers then code unless the body
or the code already reached the sink. -/
def Peek.FlushMissing (st : PeekM) : Except WrapErr PeekM :=
  if st.peek.bodyWritten ∨ st.peek.codeWritten then .ok st
  else do Peek.FlushCode (← Peek.FlushHeaders st)

/-- Run a sequence of `Peek.Write` calls, collecting each call's
`(n, err)` result in order. -/
def Peek.writeAll (proceed : Option (Peek → Bool)) (st : PeekM) :
    List String → PeekM × List (Nat × Option WriteErr)
  | [] => (st, [])
  | b :: bs =>
      let (st1, r) := Peek.Write proceed st b
      let (st2, rs) := Peek.writeAll proceed st1 bs
      (st2, r :: rs)

/-! ## buffer.go: the Buffer response-writer wrapper -/

/-- The cached fields of `Buffer` (buffer.go); the wrapped underlying writer
is passed to the flush operations explicitly. -/
structure Buffer where
  buffer : String
  Code : Nat
  changed : Bool
  header : Header
  deriving DecidableEq, Repr

/-- Source `NewBuffer(w)`: zero-valued cache over the given writer. -/
def NewBuffer : Buffer :=
  { buffer := "", Code := 0, changed := false, header := [] }

/-- Source `Buffer.Header().Set(k, v)`: obtaining the cached header marks the buffer
changed; the caller then sets `k` to `v` on it. -/
def Buffer.headerSet (bf : Buffer) (k v : String) : Buffer :=
  { bf with changed := true, header := bf.header.set k v }

/-- Source `Buffer.WriteHeader(i)`: cache the status code, tracking the change. -/
def Buffer.WriteHeader (bf : Buffer) (i : Nat) : Buffer :=
  { bf with changed := true, Code := i }

/-- Source `Buffer.Write(b)`: append to the body buffer, tracking the change;
`bytes.Buffer.Write` returns `(len(b), nil)`. -/
def Buffer.Write (bf : Buffer) (b : String) : Buffer × (Nat × Option WriteErr) :=
  ({ bf with changed := true, buffer := bf.buffer ++ b }, (b.length, none))

/-- Source `Buffer.HasChanged()`. -/
def Buffer.HasChanged (bf : Buffer) : Bool := bf.changed

/-- Source `Buffer.IsOk()`: the cached status code is unset or in the 2xx range. -/
def Buffer.IsOk (bf : Buffer) : Bool :=
  if bf.Code = 0 then true
  else if 200 ≤ bf.Code ∧ bf.Code < 300 then true
  else false

/-- Source `Buffer.Reset()`. -/
def Buffer.Reset (_bf : Buffer) : Buffer := NewBuffer

/-- Source `Buffer.FlushCode()`: write the cached status code through if it was
set. -/
def Buffer.FlushCode (bf : Buffer) (rw : RW) : RW :=
  if bf.Code ≠ 0 then rw.writeHeader bf.Code else rw

/-- Source `Buffer.FlushHeaders()`: push the cached headers to the underlying
writer. -/
def Buffer.FlushHeaders (bf : Buffer) (rw : RW) : RW :=
  rw ++ flushHeaderEvents bf.header

/-- Source `Buffer.FlushAll()`: if anything changed, flush headers, then code, then
write the buffered body through. -/
def Buffer.FlushAll (bf : Buffer) (rw : RW) : RW :=
  if bf.HasChanged then
    ((bf.FlushHeaders rw) |> bf.FlushCode).write bf.buffer
  else rw

/-! ## escapehtml.go: the EscapeHTML response-writer wrapper

`EscapeHTML.Write` iterates the input with `utf8.DecodeRune` and switches on
the decoded rune, writing the pending unescaped run and the replacement
entity to the wrapped writer on each special rune, and the remainder at the
end.  The input is modelled as the decoded rune sequence (`List Char`); the
underlying writer is abstract (any function returning Go's `(int, error)`
pair), because the source discards that result entirely. -/

/-- The replacement table of escapehtml.go (`ampRepl`, `sgQuoteRepl`,
`dblQuoteRepl`, `ltQuoteRepl`, `gtQuoteRepl`); `none` means the rune is not
escaped. -/
def escapeRepl : Char → Option String
  | '&' => some "&amp;"
  | '\'' => some "&#39;"
  | '"' => some "&#34;"
  | '<' => some "&lt;"
  | '>' => some "&gt;"
  | _ => none

/-- The loop of `EscapeHTML.Write` over an abstract underlying writer `w`
with state `α`: `pending` is the slice `b[last:i-width]` accumulated in
reverse; on a special rune the pending run and the replacement are written;
the final `e.ResponseWriter.Write(b[last:])` writes the leftover run.
Each underlying write's `(int, error)` result is discarded, as in the
source. -/
def escapeLoop {α : Type} (w : α → List Char → α × (Nat × Option WriteErr)) :
    α → List Char → List Char → α
  | st, pending, [] => (w st pending.reverse).1
  | st, pending, c :: rest =>
      match escapeRepl c with
      | some esc =>
          let st1 := (w st pending.reverse).1
          let st2 := (w st1 esc.toList).1
          escapeLoop w st2 [] rest
      | none => escapeLoop w st (c :: pending) rest

/-- Source `EscapeHTML.Write(b)` (escapehtml.go): run the escaping loop over the
wrapped writer and return the Go function's named results `(num, err)`,
which are never assigned: `(0, nil)`. -/
def EscapeHTML.Write {α : Type} (w : α → List Char → α × (Nat × Option WriteErr))
    (st : α) (b : List Char) : α × (Nat × Option WriteErr) :=
  (escapeLoop w st [] b, (0, none))

/-- An underlying writer that records every `Write` payload (the sink's view
of the body stream), always reporting success. -/
def traceWriter (st : List (List Char)) (b : List Char) :
    List (List Char) × (Nat × Option WriteErr) :=
  (st ++ [b], (b.length, none))

/-- Per-rune expansion: what the underlying sink receives for one input
rune. -/
def escapeExpand (c : Char) : List Char :=
  match escapeRepl c with
  | some esc => esc.toList
  | none => [c]

/-! ## contexter.go: Contexter, ReclaimResponseWriter

For reclamation only the shape of the sink matters: either a raw response
writer (which does not implement `Contexter`) or the example `context`
carrier (src/unnamed/part_009) wrapping an inner sink, whose `Context`
method sets a `*http.ResponseWriter` pointee to the wrapped writer. -/

/-- A response sink: a raw writer, or the `context` carrier wrapping an inner
sink. -/
inductive Sink where
  | raw (id : Nat)
  | carrier (inner : Sink)
  deriving DecidableEq, Repr

/-- The `rw.(Contexter)` type assertion followed by `Context(&w)` with
`w : http.ResponseWriter`: `none` when the sink is no `Contexter`, otherwise
the wrapped writer the carrier's `Context` stores into the pointee. -/
def Sink.contexterRWSlot : Sink → Option Sink
  | .raw _ => none
  | .carrier inner => some inner

/-- Source `ReclaimResponseWriter(rw)` (contexter.go): if `rw` is no `Contexter`
return it unchanged; otherwise return what its `Context` puts into a
`*http.ResponseWriter` pointee. -/
def ReclaimResponseWriter (rw : Sink) : Sink :=
  match rw.contexterRWSlot with
  | none => rw
  | some w => w

/-! ## The example `context` carrier (src/unnamed/part_009)

The carrier stores a `userIP net.IP` (a byte slice, possibly nil) and an
`err error` (possibly nil): both are modelled as `Option`, `none` being Go's
nil.  A context pointer is a type-tagged pointee value; the `unsupported`
tag stands for any pointer type outside the carrier's switch, carrying the
Go type name `fmt` would print for the panic value's `Type` field. -/

/-- The slot fields of the `context` struct (the wrapped response writer is
the `Sink` it decorates). -/
structure CtxStore where
  responseWriter : Sink
  userIP : Option (List Nat)
  err : Option String
  deriving DecidableEq, Repr

/-- A typed context pointer together with its current pointee value. -/
inductive CtxPtr where
  | rwPtr (cur : Option Sink)
  | uipPtr (cur : Option (List Nat))
  | errPtr (cur : Option String)
  | unsupported (tyName : String)
  deriving DecidableEq, Repr

/-- The panic values of error.go carrying the offending type
(`ErrUnsupportedContextGetter`, `ErrUnsupportedContextSetter`). -/
inductive CtxErr where
  | unsupportedGetter (tyName : String)
  | unsupportedSetter (tyName : String)
  deriving DecidableEq, Repr

/-- Source `context.Context(ctxPtr)` (src/unnamed/part_009): `found = true` up
front; `*http.ResponseWriter` receives the wrapped writer; `*userIP` and
`*error` receive the stored value unless it is nil, in which case the method
returns `false` without writing; any other type panics with
`&ErrUnsupportedContextGetter{ctxPtr}`.  The result pairs the updated
pointee with `found`. -/
def context.Context (c : CtxStore) : CtxPtr → Except CtxErr (CtxPtr × Bool)
  | .rwPtr _ => .ok (.rwPtr (some c.responseWriter), true)
  | .uipPtr cur =>
      match c.userIP with
      | none => .ok (.uipPtr cur, false)
      | some v => .ok (.uipPtr (some v), true)
  | .errPtr cur =>
      match c.err with
      | none => .ok (.errPtr cur, false)
      | some v => .ok (.errPtr (some v), true)
  | .unsupported ty => .error (CtxErr.unsupportedGetter ty)

/-- Source `context.SetContext(ctxPtr)` (src/unnamed/part_009): `*userIP` and
`*error` store the pointee; every other type — `*http.ResponseWriter`
included, it is not in the switch — panics with
`&ErrUnsupportedContextSetter{ctxPtr}`. -/
def context.SetContext (c : CtxStore) : CtxPtr → Except CtxErr CtxStore
  | .uipPtr v => .ok { c with userIP := v }
  | .errPtr v => .ok { c with err := v }
  | .rwPtr _ => .error (CtxErr.unsupportedSetter "*http.ResponseWriter")
  | .unsupported ty => .error (CtxErr.unsupportedSetter ty)

/-! ## wrap.go: ValidateContextInjecter

The validation routine probes an arbitrary `ContextInjecter` implementation
through its interface; the probed implementation is modelled by the outcome
of each probe: whether its `Wrap` delegates to the next handler, what the
probe handler observes when asking `Context` for the mandatory
`*http.ResponseWriter` slot, and how `Context`/`SetContext` behave on the
intentionally-unregistered `*contextUnsupported` probe type.  A Go panic
message built with `fmt.Sprintf("%T...", inject)` is modelled as the pair of
the carrier's type name and the format string's remainder. -/

/-- What the probe next-handler observes when asking the carrier's `Context`
for `*http.ResponseWriter`: the round trip yields the exact wrapped recorder;
or `found = false`; or some other writer instance. -/
inductive RWSlotBehavior where
  | roundtrips
  | notFound
  | wrongSink
  deriving DecidableEq, Repr

/-- How a carrier reacts to a getter/setter probe with the unregistered
`*contextUnsupported` type: falls through without panicking; panics with the
wrong value; panics with the right error struct but the wrong `Type` field;
or panics with the right error carrying the exact probe type. -/
inductive ProbeBehavior where
  | noPanic
  | panicWrongError
  | panicRightErrorWrongType
  | panicCorrect
  deriving DecidableEq, Repr

/-- A `ContextInjecter` implementation, abstracted to the behaviors the
validation probes can observe, plus its type name (what `%T` prints). -/
structure CarrierImpl where
  name : String
  callsNext : Bool
  rwSlot : RWSlotBehavior
  getterUnknown : ProbeBehavior
  setterUnknown : ProbeBehavior
  deriving DecidableEq, Repr

/-- A validation panic: the misbehaving carrier's type name (`%T`) and the
rest of the formatted message. -/
structure PanicMsg where
  carrier : String
  msg : String
  deriving DecidableEq, Repr

/-- Source `validatecontextInjecterUnsupportedGetter` (wrap.go): serve a probe
request whose next handler calls `Context` with the unregistered type, and
recover, reporting `(panicked, correctError, correctType)`.  If `Wrap` never
calls next, the probe does not run and nothing panics. -/
def validatecontextInjecterUnsupportedGetter (c : CarrierImpl) : Bool × Bool × Bool :=
  if c.callsNext then
    match c.getterUnknown with
    | .noPanic => (false, false, false)
    | .panicWrongError => (true, false, false)
    | .panicRightErrorWrongType => (true, true, false)
    | .panicCorrect => (true, true, true)
  else (false, false, false)

/-- Source `validatecontextInjecterUnsupportedSetter` (wrap.go): the analogous probe
through `SetContext`. -/
def validatecontextInjecterUnsupportedSetter (c : CarrierImpl) : Bool × Bool × Bool :=
  if c.callsNext then
    match c.setterUnknown with
    | .noPanic => (false, false, false)
    | .panicWrongError => (true, false, false)
    | .panicRightErrorWrongType => (true, true, false)
    | .panicCorrect => (true, true, true)
  else (false, false, false)

/-- Source `validateContextInjecterSupportsResponseWriter` (wrap.go): serve a probe
request; inside the next handler, panic if the `*http.ResponseWriter` slot is
unsupported or does not round-trip to the wrapped recorder; afterwards panic
if next was never called. -/
def validateContextInjecterSupportsResponseWriter (c : CarrierImpl) :
    Except PanicMsg Unit :=
  if c.callsNext then
    match c.rwSlot with
    | .roundtrips => .ok ()
    | .notFound => .error ⟨c.name, ".Context() does not support *http.ResponseWriter"⟩
    | .wrongSink => .error ⟨c.name, ".Context() does not return the wrapped *http.ResponseWriter"⟩
  else .error ⟨c.name, ".Wrap() does not call the next http.Handler"⟩

/-- Source `ValidateContextInjecter(inject)` (wrap.go): run the response-writer
round-trip check, then the unsupported-getter probe, then the
unsupported-setter probe, panicking with a message naming the carrier on the
first failed check; return `true` when all pass. -/
def ValidateContextInjecter (c : CarrierImpl) : Except PanicMsg Bool := do
  validateContextInjecterSupportsResponseWriter c
  let (panicked, correctErr, correctType) := validatecontextInjecterUnsupportedGetter c
  if !panicked then
    throw ⟨c.name, ".Context() does not panic for unknown types"⟩
  if !correctErr then
    throw ⟨c.name, ".Context() panic does not panic with *ErrUnsupportedContextGetter"⟩
  if !correctType then
    throw ⟨c.name, ".Context() panic does set *ErrUnsupportedContextGetter with correct type"⟩
  let (panicked2, correctErr2, correctType2) := validatecontextInjecterUnsupportedSetter c
  if !panicked2 then
    throw ⟨c.name, ".SetContext() does not panic for unknown types"⟩
  if !correctErr2 then
    throw ⟨c.name, ".SetContext() panic does not panic with *ErrUnsupportedContextSetter"⟩
  if !correctType2 then
    throw ⟨c.name, ".SetContext() panic does set *ErrUnsupportedContextSetter with correct type"⟩
  return true

/-- A carrier implementation passing every check of the validation protocol:
delegates to next, round-trips the wrapped writer, and panics with the exact
structured error and probe type on unregistered getter and setter probes. -/
abbrev CarrierImpl.correct (c : CarrierImpl) : Prop :=
  c.callsNext = true ∧ c.rwSlot = .roundtrips ∧
  c.getterUnknown = .panicCorrect ∧ c.setterUnknown = .panicCorrect

/-- The behavior of the example `context` carrier of src/unnamed/part_009
under the three probes: its `Wrap` calls next with a fresh
`&context{ResponseWriter: rw}`, its `Context` round-trips the wrapped writer
through the `*http.ResponseWriter` case, and both methods panic with the
structured errors carrying the probe pointer on the default case. -/
def exampleContextImpl : CarrierImpl :=
  { name := "*wrap.context", callsNext := true, rwSlot := .roundtrips,
    getterUnknown := .panicCorrect, setterUnknown := .panicCorrect }

/-- A broken carrier whose getter falls through silently on unregistered
types. -/
def silentGetterImpl : CarrierImpl :=
  { name := "*wrap.silentctx", callsNext := true, rwSlot := .roundtrips,
    getterUnknown := .noPanic, setterUnknown := .panicCorrect }

/-! ## Claim theorems -/

/-- C1: the handler built by `New` over wrappers `W1..Wn` runs their side
effects in list order followed by the terminal no-op as long as each wrapper
calls `next`, and stops right after the first wrapper that does not call
`next`, never executing a later wrapper (the tail past a stopper is
irrelevant to the result); in particular three wrappers appending "a", "b",
"c" before calling next produce body "abc", and replacing the second with the
plain-handler adapter writing "b" produces body "ab" with no "c". -/
theorem claim_C1 :
    (∀ (ws : List EffWrapper) (rw : RW),
        New (ws.map EffWrapper.toWrapper) rw = runPrefix ws rw)
    ∧ (∀ (e : RW → RW) (l1 l2 : List EffWrapper) (rw : RW),
        runPrefix (l1 ++ ⟨e, false⟩ :: l2) rw = runPrefix (l1 ++ [⟨e, false⟩]) rw)
    ∧ (New ([appendWrapper "a", appendWrapper "b", appendWrapper "c"].map
          EffWrapper.toWrapper) []).body = "abc"
    ∧ (New [(appendWrapper "a").toWrapper,
            HandlerAdapter (fun rw => rw.write "b"),
            (appendWrapper "c").toWrapper] []).body = "ab" :=
  ⟨New_effWrappers, runPrefix_stop, rfl, rfl⟩

/-- C3: on a fresh `Peek`, writing body bytes (proceed nil, so the write
passes through) and then calling `FlushCode` panics with
`ErrBodyFlushedBeforeCode`; writing body bytes and then calling
`FlushHeaders` panics with `ErrBodyFlushedBeforeCode`; and flushing a
non-zero cached code and then calling `FlushHeaders` panics with
`ErrCodeFlushedBeforeHeaders`. -/
theorem claim_C3 :
    (∀ (rw0 : RW) (b : String),
        Peek.FlushCode (Peek.Write none (NewPeek rw0) b).1 =
          .error WrapErr.bodyFlushedBeforeCode)
    ∧ (∀ (rw0 : RW) (b : String),
        Peek.FlushHeaders (Peek.Write none (NewPeek rw0) b).1 =
          .error WrapErr.bodyFlushedBeforeCode)
    ∧ (∀ (rw0 : RW) (c : Nat), c ≠ 0 →
        (do Peek.FlushHeaders (← Peek.FlushCode (Peek.WriteHeader (NewPeek rw0) c))) =
          (.error WrapErr.codeFlushedBeforeHeaders : Except WrapErr PeekM)) := by
  refine ⟨fun rw0 b => rfl, fun rw0 b => rfl, fun rw0 c hc => ?_⟩
  simp [Peek.WriteHeader, Peek.FlushCode, Peek.FlushHeaders, NewPeek, hc,
    Bind.bind, Except.bind, RW.writeHeader]

/-- Witness for C3 at the concrete code 404. -/
theorem claim_C3_witness :
    (do Peek.FlushHeaders (← Peek.FlushCode (Peek.WriteHeader (NewPeek []) 404))) =
      (.error WrapErr.codeFlushedBeforeHeaders : Except WrapErr PeekM) :=
  claim_C3.2.2 [] 404 (by decide)

/-- C2 counterexample: the claim asserts the status must be flushed no later
than the headers and that any flush out of that order raises a structured
error immediately.  On a `Peek` with cached header "X: 1" and cached code
404, flushing the headers first and the status code only afterwards — the
status flushed later than the headers, out of the claimed order — raises no
error at all: both flushes succeed. -/
theorem claim_C2_counterexample :
    (do Peek.FlushCode
          (← Peek.FlushHeaders (Peek.headerSet (Peek.WriteHeader (NewPeek []) 404) "X" "1"))) =
      (.ok ⟨⟨404, true, [("X", ["1"])], false, false, true, true, false⟩,
            [Ev.hdel "X", Ev.hadd "X" "1", Ev.writeHeader 404], 0⟩
        : Except WrapErr PeekM) := rfl

/-- C2 (amended): the `Peek` flush ordering the code enforces is the
reverse of the claimed one: the headers must be flushed no later than the
status code, and the status code no later than the body.  Any flush out of
this order raises a structured error immediately: `FlushHeaders` after the
code reached the sink raises `ErrCodeFlushedBeforeHeaders`, and
`FlushCode`/`FlushHeaders` after the body reached the sink raise
`ErrBodyFlushedBeforeCode`. -/
theorem claim_C2 :
    (∀ st : PeekM, st.peek.headersWritten = false → st.peek.codeWritten = true →
        Peek.FlushHeaders st = .error WrapErr.codeFlushedBeforeHeaders)
    ∧ (∀ st : PeekM, st.peek.codeWritten = false → st.peek.bodyWritten = true →
        Peek.FlushCode st = .error WrapErr.bodyFlushedBeforeCode)
    ∧ (∀ st : PeekM, st.peek.headersWritten = false → st.peek.codeWritten = false →
        st.peek.bodyWritten = true →
        Peek.FlushHeaders st = .error WrapErr.bodyFlushedBeforeCode) := by
  refine ⟨fun st h1 h2 => ?_, fun st h1 h2 => ?_, fun st h1 h2 h3 => ?_⟩
  · simp [Peek.FlushHeaders, h1, h2]
  · simp [Peek.FlushCode, h1, h2]
  · simp [Peek.FlushHeaders, h1, h2, h3]

/-- Witness for C2 (amended) at concrete out-of-order states. -/
theorem claim_C2_witness :
    Peek.FlushHeaders ⟨⟨404, true, [], false, false, true, false, false⟩, [], 0⟩ =
        .error WrapErr.codeFlushedBeforeHeaders
    ∧ Peek.FlushCode ⟨⟨0, true, [], false, false, false, false, true⟩, [], 0⟩ =
        .error WrapErr.bodyFlushedBeforeCode
    ∧ Peek.FlushHeaders ⟨⟨0, true, [], false, false, false, false, true⟩, [], 0⟩ =
        .error WrapErr.bodyFlushedBeforeCode :=
  ⟨claim_C2.1 _ rfl rfl, claim_C2.2.1 _ rfl rfl, claim_C2.2.2 _ rfl rfl rfl⟩

/-- Helper: a sink is never equal to itself wrapped in one more carrier. -/
theorem Sink.carrier_ne (s : Sink) : Sink.carrier s ≠ s := by
  induction s with
  | raw i => exact fun h => Sink.noConfusion h
  | carrier t ih => exact fun h => ih (by injection h)

/-- C6: `ReclaimResponseWriter` is single-level: a sink that is no carrier is
returned unchanged, and a carrier yields the sink stored in its
response-writer slot without recursing; wrapping a sink in carrier A and
that in carrier B and reclaiming through B yields A, which is not the
original sink. -/
theorem claim_C6 :
    (∀ i : Nat, ReclaimResponseWriter (Sink.raw i) = Sink.raw i)
    ∧ (∀ s : Sink, ReclaimResponseWriter (Sink.carrier s) = s)
    ∧ (∀ s : Sink,
        ReclaimResponseWriter (Sink.carrier (Sink.carrier s)) = Sink.carrier s
          ∧ Sink.carrier s ≠ s) :=
  ⟨fun _ => rfl, fun _ => rfl, fun s => ⟨rfl, Sink.carrier_ne s⟩⟩

/-- Witness for C6 at a concrete two-level nesting over raw sink 7. -/
theorem claim_C6_witness :
    ReclaimResponseWriter (Sink.raw 7) = Sink.raw 7
    ∧ ReclaimResponseWriter (Sink.carrier (Sink.carrier (Sink.raw 7))) =
        Sink.carrier (Sink.raw 7)
    ∧ Sink.carrier (Sink.raw 7) ≠ Sink.raw 7 :=
  ⟨claim_C6.1 7, (claim_C6.2.2 (Sink.raw 7)).1, (claim_C6.2.2 (Sink.raw 7)).2⟩

/-- An underlying writer whose `Write` always fails, to observe that
`EscapeHTML.Write` drops underlying write errors. -/
def failWriter (st : Unit) (_b : List Char) : Unit × (Nat × Option WriteErr) :=
  (st, (0, some WriteErr.eof))

/-- C10: `EscapeHTML.Write` returns `(0, nil)` for every input and every
underlying writer — the Go named results `num, err` are never assigned —
including when the underlying writer reports errors, which are silently
dropped. -/
theorem claim_C10 :
    (∀ (α : Type) (w : α → List Char → α × (Nat × Option WriteErr)) (st : α)
        (b : List Char), (EscapeHTML.Write w st b).2 = (0, none))
    ∧ (∀ b : List Char, (EscapeHTML.Write failWriter () b).2 = (0, none)) :=
  ⟨fun _ _ _ _ => rfl, fun _ => rfl⟩

/-- C4 counterexample: the claim demands `found = true` for *every* value of
a supported type.  For the value nil of the supported type `error`,
`SetContext(&v)` stores nil and the immediately following `Context(&out)` on
the same carrier returns `found = false` (the carrier's nil check), leaving
the pointee untouched. -/
theorem claim_C4_counterexample :
    context.SetContext ⟨Sink.raw 0, none, none⟩ (CtxPtr.errPtr none) =
        .ok ⟨Sink.raw 0, none, none⟩
    ∧ context.Context ⟨Sink.raw 0, none, none⟩ (CtxPtr.errPtr none) =
        .ok (CtxPtr.errPtr none, false) :=
  ⟨rfl, rfl⟩

/-- C4 (amended): for every type T supported by the carrier's setter
(`userIP` and `error` in the example carrier) and every *non-nil* value v of
type T, `SetContext(&v)` followed immediately by `Context(&out)` on the same
carrier instance writes v into the zero-valued pointee and reports
`found = true`; for a nil value the getter instead reports `found = false`
and leaves the pointee untouched. -/
theorem claim_C4 :
    (∀ (c : CtxStore) (v : List Nat), ∃ c2,
        context.SetContext c (CtxPtr.uipPtr (some v)) = .ok c2
        ∧ context.Context c2 (CtxPtr.uipPtr none) = .ok (CtxPtr.uipPtr (some v), true))
    ∧ (∀ (c : CtxStore) (s : String), ∃ c2,
        context.SetContext c (CtxPtr.errPtr (some s)) = .ok c2
        ∧ context.Context c2 (CtxPtr.errPtr none) = .ok (CtxPtr.errPtr (some s), true))
    ∧ (∀ c : CtxStore, ∃ c2,
        context.SetContext c (CtxPtr.errPtr none) = .ok c2
        ∧ context.Context c2 (CtxPtr.errPtr none) = .ok (CtxPtr.errPtr none, false)) :=
  ⟨fun _ _ => ⟨_, rfl, rfl⟩, fun _ _ => ⟨_, rfl, rfl⟩, fun _ => ⟨_, rfl, rfl⟩⟩

/-- C5: `ValidateContextInjecter` returns true on a correctly implemented
carrier (delegates to next, round-trips the wrapped response writer through
the mandatory `*http.ResponseWriter` slot, and panics with the exact
structured errors carrying the probe type for unregistered types), and on a
carrier failing any of these checks it panics with a message naming the
misbehaving carrier. -/
theorem claim_C5 :
    ∀ c : CarrierImpl,
      (c.correct → ValidateContextInjecter c = .ok true)
      ∧ (¬ c.correct → ∃ m, ValidateContextInjecter c = .error ⟨c.name, m⟩) := by
  rintro ⟨n, cn, rs, gu, su⟩
  constructor
  · rintro ⟨h1, h2, h3, h4⟩
    simp only at h1 h2 h3 h4
    subst h1; subst h2; subst h3; subst h4
    rfl
  · intro h
    cases cn <;> cases rs <;> cases gu <;> cases su <;>
      first
        | exact ⟨_, rfl⟩
        | exact absurd ⟨rfl, rfl, rfl, rfl⟩ h

/-- Witness for C5: the example carrier's behavior validates to true, and a
carrier whose getter falls through silently on an unregistered type makes
validation panic with a message naming it. -/
theorem claim_C5_witness :
    ValidateContextInjecter exampleContextImpl = .ok true
    ∧ (∃ m, ValidateContextInjecter silentGetterImpl =
        .error ⟨silentGetterImpl.name, m⟩) :=
  ⟨(claim_C5 exampleContextImpl).1 (by decide),
   (claim_C5 silentGetterImpl).2 (by decide)⟩

/-- Helper: a `Peek.Write` on a state where the write is already forbidden
and `proceed` already consulted returns `(0, io.EOF)` and changes nothing. -/
theorem Peek.Write_forbidden (p : Option (Peek → Bool)) (st : PeekM) (b : String)
    (h1 : st.peek.writeForbidden = true) (h2 : st.peek.isChecked = true) :
    Peek.Write p st b = (st, (0, some WriteErr.eof)) := by
  cases p <;> simp [Peek.Write, h1, h2]

/-- Helper: every write on a forbidden, already-checked state returns
`(0, io.EOF)` and leaves the state untouched. -/
theorem Peek.writeAll_forbidden (bs : List String) :
    ∀ st : PeekM, st.peek.writeForbidden = true → st.peek.isChecked = true →
      Peek.writeAll (some fun _ => false) st bs =
        (st, List.replicate bs.length (0, some WriteErr.eof)) := by
  induction bs with
  | nil => intro st h1 h2; rfl
  | cons b bs ih =>
    intro st h1 h2
    simp only [Peek.writeAll, Peek.Write_forbidden _ st b h1 h2, ih st h1 h2,
      List.length_cons, List.replicate_succ]

/-- Helper: from a fresh `Peek`, a sequence of writes under a `proceed`
returning false consults `proceed` once on the first write, returns
`(0, io.EOF)` from every write and never touches the underlying writer. -/
theorem Peek.writeAll_const_false (rw0 : RW) (b0 : String) (bs : List String) :
    Peek.writeAll (some fun _ => false) (NewPeek rw0) (b0 :: bs) =
      (⟨⟨0, false, [], true, true, false, false, false⟩, rw0, 1⟩,
       List.replicate (bs.length + 1) (0, some WriteErr.eof)) := by
  have h1 : Peek.Write (some fun _ => false) (NewPeek rw0) b0 =
      (⟨⟨0, false, [], true, true, false, false, false⟩, rw0, 1⟩,
       (0, some WriteErr.eof)) := rfl
  have h2 := Peek.writeAll_forbidden bs
    ⟨⟨0, false, [], true, true, false, false, false⟩, rw0, 1⟩ rfl rfl
  simp only [Peek.writeAll, h1, h2, List.replicate_succ]

/-- Helper: with a nil `proceed`, every write on a non-forbidden state
passes through to the underlying writer. -/
theorem Peek.writeAll_none (bs : List String) :
    ∀ st : PeekM, st.peek.writeForbidden = false →
      (Peek.writeAll none st bs).1.rw = st.rw ++ bs.map Ev.write := by
  induction bs with
  | nil => intro st h; simp [Peek.writeAll]
  | cons b bs ih =>
    intro st h
    simp only [Peek.writeAll, Peek.Write, h]
    rw [ih _ (by simp [h])]
    simp [RW.write]

/-- Helper: with a `proceed` returning true, every write on a fresh or
checked non-forbidden state passes through to the underlying writer. -/
theorem Peek.writeAll_const_true (bs : List String) :
    ∀ st : PeekM, st.peek.writeForbidden = false →
      (Peek.writeAll (some fun _ => true) st bs).1.rw = st.rw ++ bs.map Ev.write := by
  induction bs with
  | nil => intro st h; simp [Peek.writeAll]
  | cons b bs ih =>
    intro st h
    cases hc : st.peek.isChecked with
    | true =>
      simp only [Peek.writeAll, Peek.Write, hc]
      simp only [Bool.not_true, Bool.false_eq_true, if_false, h]
      rw [ih _ (by simp [h])]
      simp [RW.write]
    | false =>
      simp only [Peek.writeAll, Peek.Write, hc]
      simp only [Bool.not_false, if_true]
      rw [ih _ (by simp)]
      simp [RW.write]

/-- C7: for a `Peek` whose `proceed` returns false, `proceed` is invoked
exactly once — on the first body-write attempt; that write and every later
write return zero bytes and `io.EOF`; and the underlying writer receives
nothing.  If `proceed` returns true or is nil, every write passes through to
the underlying writer. -/
theorem claim_C7 :
    (∀ (rw0 : RW) (b0 : String) (bs : List String),
        (Peek.writeAll (some fun _ => false) (NewPeek rw0) (b0 :: bs)).1.rw = rw0
        ∧ (Peek.writeAll (some fun _ => false) (NewPeek rw0) (b0 :: bs)).1.proceedCalls = 1
        ∧ (Peek.writeAll (some fun _ => false) (NewPeek rw0) (b0 :: bs)).2 =
            List.replicate (bs.length + 1) (0, some WriteErr.eof))
    ∧ (∀ (rw0 : RW) (bs : List String),
        (Peek.writeAll none (NewPeek rw0) bs).1.rw = rw0 ++ bs.map Ev.write
        ∧ (Peek.writeAll (some fun _ => true) (NewPeek rw0) bs).1.rw =
            rw0 ++ bs.map Ev.write) := by
  refine ⟨fun rw0 b0 bs => ?_, fun rw0 bs =>
    ⟨Peek.writeAll_none bs (NewPeek rw0) rfl, Peek.writeAll_const_true bs (NewPeek rw0) rfl⟩⟩
  rw [Peek.writeAll_const_false rw0 b0 bs]
  exact ⟨rfl, rfl, rfl⟩

/-- C8: `Buffer.FlushAll` pushes the cached headers, then the cached status
code (when one was set), then the buffered body to the underlying writer, in
that order, and only when something changed; `Header`, `WriteHeader` and
`Write` each mark the buffer changed, and a fresh buffer is unchanged.  In
particular header "X: 1", status 404 and body "not found" flush to the
underlying writer in exactly that order. -/
theorem claim_C8 :
    (∀ (bf : Buffer) (rw : RW),
        Buffer.FlushAll bf rw =
          if bf.changed then
            rw ++ flushHeaderEvents bf.header
               ++ (if bf.Code ≠ 0 then [Ev.writeHeader bf.Code] else [])
               ++ [Ev.write bf.buffer]
          else rw)
    ∧ NewBuffer.changed = false
    ∧ (∀ (bf : Buffer) (k v : String), (Buffer.headerSet bf k v).changed = true)
    ∧ (∀ (bf : Buffer) (i : Nat), (Buffer.WriteHeader bf i).changed = true)
    ∧ (∀ (bf : Buffer) (b : String), (Buffer.Write bf b).1.changed = true)
    ∧ Buffer.FlushAll
        (Buffer.Write (Buffer.WriteHeader (Buffer.headerSet NewBuffer "X" "1") 404)
          "not found").1 [] =
        [Ev.hdel "X", Ev.hadd "X" "1", Ev.writeHeader 404, Ev.write "not found"] := by
  refine ⟨fun bf rw => ?_, rfl, fun _ _ _ => rfl, fun _ _ => rfl, fun _ _ => rfl, rfl⟩
  by_cases h : bf.changed
  · by_cases hc : bf.Code = 0 <;>
      simp [Buffer.FlushAll, Buffer.HasChanged, Buffer.FlushHeaders, Buffer.FlushCode,
        RW.write, RW.writeHeader, h, hc, List.append_assoc]
  · simp [Buffer.FlushAll, Buffer.HasChanged, h]

/-- Witness for C8 at a concrete changed buffer with code 404. -/
theorem claim_C8_witness :
    Buffer.FlushAll ⟨"not found", 404, true, [("X", ["1"])]⟩ [] =
      [Ev.hdel "X", Ev.hadd "X" "1", Ev.writeHeader 404, Ev.write "not found"] := by
  rw [claim_C8.1 ⟨"not found", 404, true, [("X", ["1"])]⟩ []]
  rfl

/-- Helper: the trace of writes the escaping loop sends to the underlying
writer concatenates to the pending run followed by the per-rune
expansion of the remaining input. -/
theorem escapeLoop_trace (b : List Char) :
    ∀ (st : List (List Char)) (pending : List Char),
      (escapeLoop traceWriter st pending b).flatten =
        st.flatten ++ pending.reverse ++ b.flatMap escapeExpand := by
  induction b with
  | nil =>
    intro st pending
    simp [escapeLoop, traceWriter]
  | cons c rest ih =>
    intro st pending
    rw [escapeLoop]
    cases hc : escapeRepl c with
    | some esc =>
      simp only [traceWriter, ih]
      simp [escapeExpand, hc, List.flatMap_cons, List.append_assoc]
    | none =>
      rw [ih]
      simp [escapeExpand, hc, List.flatMap_cons, List.append_assoc]

/-- C9: `EscapeHTML.Write` re-encodes exactly the runes `& ' " < >` into
their entity forms (`&amp; &#39; &#34; &lt; &gt;`) and passes every other
rune through unchanged: the underlying writer receives the per-rune
expansion of the input, and on the input `abc<d>"e'f&g` it receives
`abc&lt;d&gt;&#34;e&#39;f&amp;g`. -/
theorem claim_C9 :
    (∀ b : List Char,
        (EscapeHTML.Write traceWriter [] b).1.flatten = b.flatMap escapeExpand)
    ∧ (EscapeHTML.Write traceWriter []
          ['a', 'b', 'c', '<', 'd', '>', '"', 'e', '\'', 'f', '&', 'g']).1.flatten =
        "abc&lt;d&gt;&#34;e&#39;f&amp;g".toList := by
  constructor
  · intro b
    rw [EscapeHTML.Write, escapeLoop_trace]
    simp
  · rfl

end Wrap
